import Mathlib

/-!
Verification of the pipewire-rs event-loop core (pipewire/src/loop_.rs).

The native loop/interface provider (the spa capability table) is external to
the crate; where its behavior is needed it is passed in as an explicit oracle
function, and where a claim depends on its semantics the model is written from
the specification and marked as such in its doc comment. Everything else is a
direct shallow embedding of the Rust source: machine integers become Nat/Int
with explicit bounds, Rust panics become the error branch of Except, and calls
through the native interface are recorded as an explicit trace of NativeCall
values.
-/

/-- Embedding of std::time::Duration: a number of whole seconds plus a
sub-second nanosecond part, which Rust guarantees is below 10^9. -/
structure Duration where
  secs : Nat
  nanos : Nat
  nanos_lt : nanos < 1000000000

/-- Duration::as_secs. -/
def Duration.as_secs (d : Duration) : Nat := d.secs

/-- Duration::subsec_nanos. -/
def Duration.subsec_nanos (d : Duration) : Nat := d.nanos

/-- Duration::as_millis: whole milliseconds, truncating the remainder. -/
def Duration.as_millis (d : Duration) : Nat := d.secs * 1000 + d.nanos / 1000000

/-- Duration::default, the zero duration (used by unwrap_or_default). -/
def Duration.zero : Duration := ⟨0, 0, by norm_num⟩

/-- Largest value of the C int type (i32): the native narrow duration type
that LoopRef::iterate converts its millisecond timeout into. -/
def cIntMax : Nat := 2147483647

/-- Largest value of i64, the type of timespec's tv_sec field. -/
def i64Max : Nat := 9223372036854775807

/-- Embedding of LoopRef::iterate. The native provider's iterate method is the
oracle nativeIterate, taking the timeout in milliseconds and returning the
number of dispatched fds. The Rust code converts timeout.as_millis() (a u128)
into a c_int with try_into().expect(...), which panics exactly when the value
exceeds cIntMax, and otherwise forwards it and returns the native result. -/
def LoopRef.iterate (nativeIterate : Nat → Int) (timeout : Duration) :
    Except String Int :=
  if timeout.as_millis ≤ cIntMax then
    Except.ok (nativeIterate timeout.as_millis)
  else
    Except.error "Provided timeout does not fit in a c_int"

/-- Claim C7: iterate(timeout) panics if and only if the timeout expressed in
milliseconds does not fit in the native narrow duration type (c_int); for every
timeout whose millisecond value fits, iterate forwards that value to the native
provider and returns its dispatch count without panicking. -/
theorem iterate_timeout_spec (f : Nat → Int) (t : Duration) :
    ((∃ e, LoopRef.iterate f t = Except.error e) ↔ cIntMax < t.as_millis)
    ∧ (t.as_millis ≤ cIntMax → LoopRef.iterate f t = Except.ok (f t.as_millis)) := by
  constructor
  · constructor
    · intro ⟨e, he⟩
      simp only [LoopRef.iterate] at he
      split at he
      · cases he
      · omega
    · intro h
      refine ⟨"Provided timeout does not fit in a c_int", ?_⟩
      simp only [LoopRef.iterate]
      rw [if_neg (by omega)]
  · intro h
    simp only [LoopRef.iterate]
    rw [if_pos h]

/-- A concrete two-second timeout. -/
def twoSecDuration : Duration := ⟨2, 0, by norm_num⟩

/-- Witness for C7: a 2 s timeout is 2000 ms, fits in c_int, and is forwarded
verbatim to the native provider, whose dispatch count comes back unmodified. -/
theorem iterate_timeout_spec_witness :
    LoopRef.iterate (fun n => (n : Int)) twoSecDuration = Except.ok 2000 := by
  have h := (iterate_timeout_spec (fun n => (n : Int)) twoSecDuration).2 (by decide)
  simpa using h

/-- Claim C10: iterate(timeout) truncates the timeout to whole milliseconds
before passing it to the native provider: every timeout strictly below one
millisecond (secs = 0 and nanos < 10^6) reaches the native iterate as
timeout 0, a non-blocking poll. -/
theorem iterate_subms_truncates_to_zero (f : Nat → Int) (t : Duration)
    (hs : t.secs = 0) (hn : t.nanos < 1000000) :
    LoopRef.iterate f t = Except.ok (f 0) := by
  have hm : t.as_millis = 0 := by
    simp [Duration.as_millis, hs, Nat.div_eq_of_lt hn]
  simp only [LoopRef.iterate, hm]
  rw [if_pos (by norm_num [cIntMax])]

/-- A concrete non-zero sub-millisecond duration: 999999 ns. -/
def subMsDuration : Duration := ⟨0, 999999, by norm_num⟩

/-- Witness for C10: a 999999 ns timeout is passed to the native provider as
0 ms. -/
theorem iterate_subms_truncates_to_zero_witness :
    LoopRef.iterate (fun n => (n : Int) + 7) subMsDuration = Except.ok 7 := by
  have h := iterate_subms_truncates_to_zero (fun n => (n : Int) + 7) subMsDuration
    rfl (by norm_num [subMsDuration])
  simpa using h

/-- Embedding of spa_sys::timespec: seconds (i64) and nanoseconds (c_long). -/
structure Timespec where
  tv_sec : Int
  tv_nsec : Int
deriving DecidableEq

/-- Modelled from the spec: SpaResult and SpaResult::from_c live in the libspa
result module, which is not among the provided sources. Per the spec, signal()
and update_timer() return a result value reflecting the native interface's
outcome, propagated verbatim and wrapped only as a typed result, so from_c is
the typed wrapper that stores the raw native code unchanged. -/
structure SpaResult where
  raw : Int
deriving DecidableEq

/-- Modelled from the spec: the typed wrapper preserves the native code. -/
def SpaResult.from_c (res : Int) : SpaResult := ⟨res⟩

/-- One call through the native loop/interface capability table, as recorded in
an effect trace. -/
inductive NativeCall where
  | destroySource (ptr : Nat)
  | signalEvent (ptr : Nat)
  | updateTimer (ptr : Nat) (value : Timespec) (interval : Timespec) (absolute : Bool)
  | loopDestroy (ptr : Nat)
deriving DecidableEq

/-- Embedding of the duration_to_timespec helper nested in update_timer:
tv_sec is as_secs() converted to i64 with expect("Duration too long"), which
panics above i64Max; tv_nsec is subsec_nanos() (a u32, below 10^9), whose
conversion to the wider signed type never fails. -/
def duration_to_timespec (d : Duration) : Except String Timespec :=
  if d.as_secs ≤ i64Max then
    Except.ok ⟨(d.as_secs : Int), (d.subsec_nanos : Int)⟩
  else
    Except.error "Duration too long"

/-- Embedding of TimerSource handles: the native spa_source registration
pointer. The loop back-reference is passed explicitly where needed and the
boxed callback is modelled separately with the dispatch bridge. -/
structure TimerSource where
  ptr : Nat
deriving DecidableEq

/-- The (value, interval) timespec pair that TimerSource::update_timer encodes
from its optional-duration arguments: each absent argument is replaced by the
default (zero) duration via unwrap_or_default, the value argument is converted
first, and either conversion's panic aborts the call. -/
def TimerSource.update_timer_args (value interval : Option Duration) :
    Except String (Timespec × Timespec) :=
  match duration_to_timespec (value.getD Duration.zero),
      duration_to_timespec (interval.getD Duration.zero) with
  | Except.ok v, Except.ok i => Except.ok (v, i)
  | Except.error e, _ => Except.error e
  | _, Except.error e => Except.error e

/-- Embedding of TimerSource::update_timer: encode both durations, make one
native update_timer call with absolute = false, and wrap its result code with
SpaResult::from_c. The returned trace records the native calls made. -/
def TimerSource.update_timer
    (native : Nat → Timespec → Timespec → Bool → Int) (s : TimerSource)
    (value interval : Option Duration) :
    Except String (SpaResult × List NativeCall) :=
  match TimerSource.update_timer_args value interval with
  | Except.ok (v, i) =>
      Except.ok (SpaResult.from_c (native s.ptr v i false),
        [NativeCall.updateTimer s.ptr v i false])
  | Except.error e => Except.error e

/-- Whether a timespec is the zero pair. -/
def Timespec.isZero (t : Timespec) : Bool := t.tv_sec == 0 && t.tv_nsec == 0

/-- The arming modes of a native timer. -/
inductive TimerMode where
  | disarmed
  | oneShot
  | periodic
deriving DecidableEq

/-- Modelled from the spec: the native provider's update_timer semantics (the
provider is external to the crate). A zero value pair disarms the timer
entirely; a non-zero value with a zero interval arms it one-shot; non-zero
value and interval arm it periodically. -/
def timerModeOf (value interval : Timespec) : TimerMode :=
  if value.isZero then TimerMode.disarmed
  else if interval.isZero then TimerMode.oneShot
  else TimerMode.periodic

/-- Helper: with both seconds values inside i64 range, the encoded pair is the
(seconds, nanoseconds) timespec of each argument after unwrap_or_default. -/
theorem update_timer_args_eq (v i : Option Duration)
    (hv : (v.getD Duration.zero).secs ≤ i64Max)
    (hi : (i.getD Duration.zero).secs ≤ i64Max) :
    TimerSource.update_timer_args v i =
      Except.ok
        (⟨((v.getD Duration.zero).secs : Int), ((v.getD Duration.zero).nanos : Int)⟩,
         ⟨((i.getD Duration.zero).secs : Int), ((i.getD Duration.zero).nanos : Int)⟩) := by
  simp [TimerSource.update_timer_args, duration_to_timespec, Duration.as_secs,
    Duration.subsec_nanos, hv, hi]

/-- Claim C5: update_timer encodes its value and interval arguments as
(seconds, nanoseconds) pairs, an absent (None) duration is encoded identically
to a zero duration, a zero/absent value disarms the timer entirely, and a
zero/absent interval makes it one-shot. -/
theorem update_timer_encoding (v i : Option Duration)
    (hv : (v.getD Duration.zero).secs ≤ i64Max)
    (hi : (i.getD Duration.zero).secs ≤ i64Max) :
    TimerSource.update_timer_args v i =
      Except.ok
        (⟨((v.getD Duration.zero).secs : Int), ((v.getD Duration.zero).nanos : Int)⟩,
         ⟨((i.getD Duration.zero).secs : Int), ((i.getD Duration.zero).nanos : Int)⟩)
    ∧ TimerSource.update_timer_args none i
        = TimerSource.update_timer_args (some Duration.zero) i
    ∧ TimerSource.update_timer_args v none
        = TimerSource.update_timer_args v (some Duration.zero)
    ∧ (∀ ts : Timespec, timerModeOf ⟨0, 0⟩ ts = TimerMode.disarmed)
    ∧ (∀ ts : Timespec, ts.isZero = false →
        timerModeOf ts ⟨0, 0⟩ = TimerMode.oneShot) := by
  refine ⟨update_timer_args_eq v i hv hi, rfl, rfl, ?_, ?_⟩
  · intro ts
    simp [timerModeOf, Timespec.isZero]
  · intro ts h
    simp only [timerModeOf, h, Bool.false_eq_true, if_false]
    simp [Timespec.isZero]

/-- A concrete duration of 1 s and 500 ns. -/
def testValueDuration : Duration := ⟨1, 500, by norm_num⟩

/-- Witness for C5: arming with value = 1 s + 500 ns and interval = None
encodes as the pairs (1, 500) and (0, 0). -/
theorem update_timer_encoding_witness :
    TimerSource.update_timer_args (some testValueDuration) none =
      Except.ok (⟨1, 500⟩, ⟨0, 0⟩) := by
  have h := (update_timer_encoding (some testValueDuration) none
    (by decide) (by decide)).1
  simpa [testValueDuration, Duration.zero] using h

/-- Embedding of EventSource handles: the native spa_source registration
pointer. The loop back-reference is passed explicitly where needed and the
boxed callback is modelled separately with the dispatch bridge. -/
structure EventSource where
  ptr : Nat
deriving DecidableEq

/-- Embedding of EventSource::signal: one native signal_event call on this
source's pointer, its result code wrapped with SpaResult::from_c. The returned
trace records the native calls made. -/
def EventSource.signal (native : Nat → Int) (s : EventSource) :
    SpaResult × List NativeCall :=
  (SpaResult.from_c (native s.ptr), [NativeCall.signalEvent s.ptr])

/-- Claim C6: EventSource::signal and TimerSource::update_timer each return
the result code produced by the single underlying native-interface call
unmodified (wrapped only as a typed result), and neither operation ever
retries the native call: each trace is exactly one call. -/
theorem signal_update_timer_verbatim_no_retry
    (natS : Nat → Int) (natT : Nat → Timespec → Timespec → Bool → Int)
    (e : EventSource) (s : TimerSource) (v i : Option Duration)
    (hv : (v.getD Duration.zero).secs ≤ i64Max)
    (hi : (i.getD Duration.zero).secs ≤ i64Max) :
    (EventSource.signal natS e).1.raw = natS e.ptr
    ∧ (EventSource.signal natS e).2 = [NativeCall.signalEvent e.ptr]
    ∧ ∃ vts its,
        TimerSource.update_timer_args v i = Except.ok (vts, its)
        ∧ TimerSource.update_timer natT s v i =
            Except.ok (SpaResult.from_c (natT s.ptr vts its false),
              [NativeCall.updateTimer s.ptr vts its false])
        ∧ (SpaResult.from_c (natT s.ptr vts its false)).raw
            = natT s.ptr vts its false := by
  have hargs := update_timer_args_eq v i hv hi
  refine ⟨rfl, rfl, _, _, hargs, ?_, rfl⟩
  simp [TimerSource.update_timer, hargs]

/-- Witness for C6: a native signal_event returning -22 is surfaced as the
typed result with raw code -22, and the trace is the single signal_event
call; update_timer on disarm arguments makes the single native call. -/
theorem signal_update_timer_verbatim_no_retry_witness :
    (EventSource.signal (fun _ => -22) ⟨3⟩).1.raw = -22
    ∧ (EventSource.signal (fun _ => -22) ⟨3⟩).2
        = [NativeCall.signalEvent 3] := by
  have h := signal_update_timer_verbatim_no_retry (fun _ => -22)
    (fun _ _ _ _ => 0) ⟨3⟩ ⟨4⟩ none none (by decide) (by decide)
  exact ⟨h.1, h.2.1⟩

/-- Embedding of the owning Loop type: the raw pw_loop pointer it wraps, with
0 standing for the null pointer. -/
structure Loop where
  ptr : Nat
deriving DecidableEq

/-- Embedding of Loop::from_raw: take ownership of the given raw pointer. -/
def Loop.from_raw (p : Nat) : Loop := ⟨p⟩

/-- Embedding of Loop::new: after the lazy library initialization it wraps
whatever pointer pw_loop_new returns (the oracle argument) via from_raw. The
Rust return type is Self, not a Result, and the pointer is not null-checked. -/
def Loop.new (pw_loop_new_result : Nat) : Loop := Loop.from_raw pw_loop_new_result

/-- Embedding of the Drop impl for Loop: one unconditional native
pw_loop_destroy call on the wrapped pointer. -/
def Loop.drop (l : Loop) : List NativeCall := [NativeCall.loopDestroy l.ptr]

/-- Embedding of Loop::into_raw: ManuallyDrop suppresses the destructor, so
the raw pointer is handed back and no native call is made. -/
def Loop.into_raw (l : Loop) : Nat × List NativeCall := (l.ptr, [])

/-- The two ways a Loop value's lifetime can end: consumed by into_raw, or
dropped at end of scope. -/
inductive LoopEnd where
  | intoRaw
  | dropped
deriving DecidableEq

/-- End-of-life processing of a Loop value: into_raw hands the pointer back
with the destructor suppressed; going out of scope runs the Drop impl. -/
def Loop.finalize (l : Loop) : LoopEnd → Option Nat × List NativeCall
  | LoopEnd.intoRaw => (some (Loop.into_raw l).1, (Loop.into_raw l).2)
  | LoopEnd.dropped => (none, Loop.drop l)

/-- Claim C1 counterexample: when the native loop constructor returns null
(0), Loop::new hands the caller a Loop wrapping the null resource; it returns
Self with no null check, so no typed CreationFailure error is produced. -/
theorem loop_new_null_counterexample :
    Loop.new 0 = Loop.from_raw 0 ∧ (Loop.new 0).ptr = 0 := ⟨rfl, rfl⟩

/-- Claim C1 (amended): Loop::new wraps whatever pointer the native loop
constructor returns — including null — via from_raw, with no null check and
no typed error path; the caller always receives a Loop carrying exactly that
pointer. -/
theorem loop_new_wraps_any_pointer (r : Nat) :
    Loop.new r = Loop.from_raw r ∧ (Loop.new r).ptr = r := ⟨rfl, rfl⟩

/-- Claim C9: into_raw returns the underlying native loop pointer and
suppresses the automatic teardown (no destroy call is made on that path),
whereas a Loop that is dropped has its native loop resource destroyed exactly
once, unconditionally. -/
theorem into_raw_suppresses_destroy (p : Nat) (c : LoopEnd) :
    (Loop.finalize (Loop.from_raw p) LoopEnd.intoRaw).1 = some p
    ∧ ((Loop.finalize (Loop.from_raw p) c).2.count (NativeCall.loopDestroy p)
        = if c = LoopEnd.intoRaw then 0 else 1)
    ∧ (Loop.finalize (Loop.from_raw p) LoopEnd.dropped).2
        = [NativeCall.loopDestroy p] := by
  refine ⟨rfl, ?_, rfl⟩
  cases c
  · simp [Loop.finalize, Loop.into_raw]
  · simp [Loop.finalize, Loop.drop, Loop.from_raw]

/-- Embedding of IoSource handles (drop view): the native spa_source
registration pointer. The owned data tuple is modelled with the registration
record, and the loop back-reference is passed explicitly where needed. -/
structure IoSource where
  ptr : Nat
deriving DecidableEq

/-- Embedding of IdleSource handles: the native spa_source registration
pointer. -/
structure IdleSource where
  ptr : Nat
deriving DecidableEq

/-- Embedding of SignalSource handles: the native spa_source registration
pointer. -/
structure SignalSource where
  ptr : Nat
deriving DecidableEq

/-- Embedding of LoopRef::destroy_source: one native destroy_source call on
the source's pointer (IsSource::as_ptr). -/
def LoopRef.destroy_source (srcPtr : Nat) : List NativeCall :=
  [NativeCall.destroySource srcPtr]

/-- Embedding of the Drop impl for IoSource: it calls the parent loop's
destroy_source on itself. -/
def IoSource.drop (s : IoSource) : List NativeCall := LoopRef.destroy_source s.ptr

/-- Embedding of the Drop impl for IdleSource. -/
def IdleSource.drop (s : IdleSource) : List NativeCall := LoopRef.destroy_source s.ptr

/-- Embedding of the Drop impl for SignalSource. -/
def SignalSource.drop (s : SignalSource) : List NativeCall := LoopRef.destroy_source s.ptr

/-- Embedding of the Drop impl for EventSource. -/
def EventSource.drop (s : EventSource) : List NativeCall := LoopRef.destroy_source s.ptr

/-- Embedding of the Drop impl for TimerSource. -/
def TimerSource.drop (s : TimerSource) : List NativeCall := LoopRef.destroy_source s.ptr

/-- Modelled from the spec: the native provider keeps the set of registered
sources and dispatches callbacks only for sources in that set; destroy_source
removes the source's registration, and no other recorded call adds or removes
registrations. -/
def applyNativeCall (registry : List Nat) : NativeCall → List Nat
  | NativeCall.destroySource p => registry.filter (fun q => q ≠ p)
  | _ => registry

/-- Run a native-call trace over the registration set. -/
def runTrace (registry : List Nat) (trace : List NativeCall) : List Nat :=
  trace.foldl applyNativeCall registry

/-- Claim C4: dropping any Source handle (Io, Idle, Signal, Event, or Timer)
synchronously invokes the parent Loop's destroy_source on that source's
native registration exactly once; running that trace removes the source from
the native registration set, so no subsequent dispatch over the set can
invoke its callback, while every other registration is untouched. -/
theorem source_drop_destroys_once
    (io : IoSource) (idle : IdleSource) (sig : SignalSource)
    (ev : EventSource) (tim : TimerSource) (registry : List Nat) :
    IoSource.drop io = [NativeCall.destroySource io.ptr]
    ∧ IdleSource.drop idle = [NativeCall.destroySource idle.ptr]
    ∧ SignalSource.drop sig = [NativeCall.destroySource sig.ptr]
    ∧ EventSource.drop ev = [NativeCall.destroySource ev.ptr]
    ∧ TimerSource.drop tim = [NativeCall.destroySource tim.ptr]
    ∧ (IoSource.drop io).count (NativeCall.destroySource io.ptr) = 1
    ∧ io.ptr ∉ runTrace registry (IoSource.drop io)
    ∧ (∀ q, q ∈ runTrace registry (IoSource.drop io) →
        q ∈ registry ∧ q ≠ io.ptr) := by
  refine ⟨rfl, rfl, rfl, rfl, rfl,
    by simp [IoSource.drop, LoopRef.destroy_source], ?_, ?_⟩
  · simp [runTrace, applyNativeCall, IoSource.drop, LoopRef.destroy_source,
      List.mem_filter]
  · intro q hq
    simp [runTrace, applyNativeCall, IoSource.drop, LoopRef.destroy_source,
      List.mem_filter] at hq
    exact hq

/-- Modelled from the spec: the thread-identity bookkeeping behind
assert_main_thread (defined in the crate utils module, which is not among the
provided sources). Per the spec, enter() records the calling thread identity
on the loop, and signal-source registration is only valid on the thread that
last called enter(). -/
structure LoopThreadState where
  lastEntered : Option Nat
deriving DecidableEq

/-- Embedding of LoopRef::enter as far as thread bookkeeping is concerned:
record the calling thread as the one owning the iteration. -/
def LoopRef.enter (tid : Nat) (_st : LoopThreadState) : LoopThreadState :=
  ⟨some tid⟩

/-- Modelled from the spec: assert_main_thread succeeds exactly when the
calling thread is the one that last called enter() on this Loop, and is a
fatal assertion otherwise. -/
def assert_main_thread (tid : Nat) (st : LoopThreadState) : Bool :=
  decide (st.lastEntered = some tid)

/-- Embedding of LoopRef::add_signal_local: assert_main_thread runs first and
a violation is a fatal assertion; then the native add_signal call is made and
the returned source pointer is checked non-null (expect "source is NULL").
The native call's returned pointer is the oracle argument. -/
def LoopRef.add_signal_local (tid : Nat) (st : LoopThreadState) (_sig : Int)
    (nativeSource : Nat) : Except String SignalSource :=
  if assert_main_thread tid st then
    if nativeSource = 0 then Except.error "source is NULL"
    else Except.ok ⟨nativeSource⟩
  else
    Except.error "assert_main_thread failed"

/-- Claim C3: add_signal_local raises a fatal assertion exactly when it is
called from a thread other than the one that last called enter() on this
Loop; called from the thread that last entered, the registration succeeds
without assertion (given a non-null native source), and enter() records the
calling thread identity. -/
theorem add_signal_local_thread_affinity (tid : Nat) (st : LoopThreadState)
    (sig : Int) (src : Nat) (hsrc : src ≠ 0) :
    ((∃ e, LoopRef.add_signal_local tid st sig src = Except.error e)
        ↔ st.lastEntered ≠ some tid)
    ∧ (st.lastEntered = some tid →
        LoopRef.add_signal_local tid st sig src = Except.ok ⟨src⟩)
    ∧ (∀ t0 st0, (LoopRef.enter t0 st0).lastEntered = some t0) := by
  refine ⟨⟨?_, ?_⟩, ?_, fun t0 st0 => rfl⟩
  · intro ⟨e, he⟩ hEq
    simp [LoopRef.add_signal_local, assert_main_thread, hEq, hsrc] at he
  · intro hne
    refine ⟨"assert_main_thread failed", ?_⟩
    simp [LoopRef.add_signal_local, assert_main_thread, hne]
  · intro hEq
    simp [LoopRef.add_signal_local, assert_main_thread, hEq, hsrc]

/-- Witness for C3: thread 5 last entered the loop, so registering a signal
source for signal 15 from thread 5 succeeds with the non-null native source. -/
theorem add_signal_local_thread_affinity_witness :
    LoopRef.add_signal_local 5 ⟨some 5⟩ 15 1 = Except.ok ⟨1⟩ :=
  (add_signal_local_thread_affinity 5 ⟨some 5⟩ 15 1 (by decide)).2.1 rfl

/-- Embedding of the boxed data tuple IoSourceData stored by add_io: the
owned I/O object together with the boxed user callback. Mutable access
(the Rust Fn(&mut I)) is modelled as a state transformation on I. -/
structure IoSourceData (I : Type) where
  io : I
  callback : I → I

/-- Embedding of the registration that add_io passes to the native add_io
method: the object's raw descriptor, the event-mask bits, the close flag,
and the boxed data handed over as user data. -/
structure IoRegistration (I : Type) where
  fd : Int
  maskBits : Nat
  close : Bool
  data : IoSourceData I

/-- Embedding of LoopRef::add_io: take the object's descriptor (as_raw_fd is
the fdOf view), box the object together with the callback, and register with
close = false — the loop is never allowed to close the descriptor. -/
def LoopRef.add_io {I : Type} (fdOf : I → Int) (io : I) (maskBits : Nat)
    (callback : I → I) : IoRegistration I :=
  ⟨fdOf io, maskBits, false, ⟨io, callback⟩⟩

/-- Embedding of the call_closure trampoline nested in add_io: it reborrows
the boxed (io, callback) pair from the user-data pointer and invokes the
callback with mutable access to the stored io object; the stored callback
itself is unchanged. -/
def add_io.call_closure {I : Type} (d : IoSourceData I) : IoSourceData I :=
  ⟨d.callback d.io, d.callback⟩

/-- Claim C8: for every I/O object registered with add_io, each callback
invocation receives mutable access to the identical object instance passed at
registration (the one stored in the source's boxed data), and the
registration never instructs the loop to close the object's descriptor. -/
theorem add_io_identity_preserving {I : Type} (fdOf : I → Int) (io : I)
    (maskBits : Nat) (cb : I → I) :
    (LoopRef.add_io fdOf io maskBits cb).data.io = io
    ∧ (LoopRef.add_io fdOf io maskBits cb).data.callback = cb
    ∧ (LoopRef.add_io fdOf io maskBits cb).close = false
    ∧ (LoopRef.add_io fdOf io maskBits cb).fd = fdOf io
    ∧ (∀ d : IoSourceData I, (add_io.call_closure d).io = d.callback d.io
        ∧ (add_io.call_closure d).callback = d.callback)
    ∧ (add_io.call_closure (LoopRef.add_io fdOf io maskBits cb).data).io
        = cb io :=
  ⟨rfl, rfl, rfl, rfl, fun _ => ⟨rfl, rfl⟩, rfl⟩

/-- Embedding of the call_closure trampoline nested in add_event: the native
provider passes the accumulated trigger count, but the parameter is unused
(it is named with an underscore in the source) and the registered callback
has the zero-argument type Fn(), so it is invoked with no arguments. The
callback's effect is modelled as a state transformation on its environment. -/
def add_event.call_closure {σ : Type} (callback : σ → σ) (_count : Nat)
    (s : σ) : σ :=
  callback s

/-- The arguments that add_event's trampoline forwards to the registered
callback: the callback takes zero arguments, so none, whatever the count. -/
def add_event.forwarded_args (_count : Nat) : List Nat := []

/-- Modelled from the spec: the native event source accumulates signal_event
triggers in a pending counter between dispatch rounds. -/
def signal_event_native (pending : Nat) : Nat := pending + 1

/-- Applying k successive signal() calls to the native pending counter. -/
def signalTimes (k pending : Nat) : Nat :=
  match k with
  | 0 => pending
  | Nat.succ n => signalTimes n (signal_event_native pending)

/-- Helper: k signal() calls add k to the pending counter. -/
theorem signalTimes_eq (k p : Nat) : signalTimes k p = p + k := by
  induction k generalizing p with
  | zero => simp [signalTimes]
  | succ n ih =>
    simp [signalTimes, signal_event_native, ih]
    omega

/-- Modelled from the spec: at the next dispatch round the native provider
collapses all pending triggers: if any are pending it invokes the bridge
trampoline once with the accumulated count and resets the counter. Returns
the new user state, the number of trampoline invocations, and the counter
after dispatch. -/
def dispatchEvent {σ : Type} (callback : σ → σ) (pending : Nat) (s : σ) :
    σ × Nat × Nat :=
  if pending = 0 then (s, 0, pending)
  else (add_event.call_closure callback pending s, 1, 0)

/-- Claim C2 counterexample: at cumulative count K = 2 the event bridge
forwards no argument to the registered callback (whose Rust type is Fn()),
so the invocation does not receive the count 2; it is the very same
invocation as for count 1. -/
theorem event_count_not_received :
    add_event.forwarded_args 2 ≠ [2]
    ∧ add_event.call_closure (fun s : Nat => s + 1) 2 7
        = add_event.call_closure (fun s : Nat => s + 1) 1 7 :=
  ⟨by decide, rfl⟩

/-- Claim C2 (amended): for every event source and every K ≥ 1, K signal()
calls between two dispatch rounds collapse into exactly one callback
invocation at the next dispatch; the native bridge is handed the cumulative
count K, but the registered callback takes no arguments, so the count is
discarded by the bridge rather than delivered to the callback. -/
theorem event_coalescing (σ : Type) (k : Nat) (hk : 1 ≤ k)
    (callback : σ → σ) (s : σ) :
    signalTimes k 0 = k
    ∧ dispatchEvent callback (signalTimes k 0) s = (callback s, 1, 0)
    ∧ add_event.forwarded_args (signalTimes k 0) = [] := by
  have h0 : signalTimes k 0 = k := by simp [signalTimes_eq]
  have hkz : k ≠ 0 := by omega
  refine ⟨h0, ?_, rfl⟩
  rw [h0]
  simp [dispatchEvent, hkz, add_event.call_closure]

/-- Witness for C2: two signal() calls then one dispatch round invoke the
counter-incrementing callback exactly once. -/
theorem event_coalescing_witness :
    dispatchEvent (fun s : Nat => s + 1) (signalTimes 2 0) 0 = (1, 1, 0) :=
  (event_coalescing Nat 2 (by decide) (fun s => s + 1) 0).2.1
